import Mathlib

/-!
Verification of the MarketLens news-sentiment aggregation core.

The repository has two front ends, `desktop_stock_app.py` (Tkinter) and
`stock_app.py` (Streamlit).  Both contain the same inline aggregation step:
given per-source `(sentiment, titles)` samples, append the sentiment and
extend the title list only when the sentiment is not `None`, then take the
arithmetic mean of the collected sentiments (`np.mean`), leaving the overall
score `None` when no sentiment was collected.  The web front end additionally
de-duplicates the combined title list keeping first occurrences
(`stock_app.py` lines 227-231); the desktop front end keeps the combined list
as is and de-duplicates only the displayed sample (`desktop_stock_app.py`
line 141).

Sentiment scores are embedded as rationals (`ℚ`), Python `None` as `none`,
and a per-source sample as `Option ℚ × List String`.  Python string
operations used by the ticker-input gate (`strip`, `upper`, `endswith`) are
embedded over `String.data`.
-/

/-- Python truthiness of an optional string: `None` and the empty string are
falsy (used for `os.environ.get` results and for article fields). -/
def pyTruthy : Option String → Bool
  | none => false
  | some s => if s = "" then false else true

/-- Python `str.strip()`: drop leading and trailing whitespace. -/
def pyStrip (s : String) : String :=
  ⟨((s.data.dropWhile Char.isWhitespace).reverse.dropWhile Char.isWhitespace).reverse⟩

/-- Python `str.upper()` (ASCII case mapping). -/
def pyUpper (s : String) : String :=
  ⟨s.data.map Char.toUpper⟩

/-- Python `s.endswith(".NS")`: the last three characters are `.NS`, i.e.
the reversed string starts with `S`, `N`, `.` (`stock_app.py` line 210). -/
def endsWithNS (s : String) : Bool :=
  decide (s.data.reverse.take 3 = ['S', 'N', '.'])

/-- The `combined_sentiments` list built by both front ends
(`desktop_stock_app.py` lines 124-131, `stock_app.py` lines 216-225):
walking the samples in order, a sample's score is appended exactly when it is
not `None`. -/
def combinedSentiments : List (Option ℚ × List String) → List ℚ
  | [] => []
  | s :: rest =>
    match s.1 with
    | none => combinedSentiments rest
    | some x => x :: combinedSentiments rest

/-- The `combined_news_titles` list built by both front ends: a sample's
titles are appended (`extend`) exactly when its score is not `None`. -/
def combinedTitles : List (Option ℚ × List String) → List String
  | [] => []
  | s :: rest =>
    match s.1 with
    | none => combinedTitles rest
    | some _ => s.2 ++ combinedTitles rest

/-- `np.mean` on a list of scores: sum divided by length. -/
def mean (l : List ℚ) : ℚ := l.sum / (l.length : ℚ)

/-- The `overall_news_sentiment` computation shared by both front ends
(`desktop_stock_app.py` lines 133-135, `stock_app.py` lines 233-235):
`None` when no sentiment was collected, otherwise the mean. -/
def overallScore (samples : List (Option ℚ × List String)) : Option ℚ :=
  if combinedSentiments samples = [] then none
  else some (mean (combinedSentiments samples))

/-- The seen-set filter of `stock_app.py` lines 229-230: keep a title exactly
when it has not been seen before, accumulating the seen set. -/
def dedupSeen (seen : List String) : List String → List String
  | [] => []
  | t :: rest =>
    if t ∈ seen then dedupSeen seen rest
    else t :: dedupSeen (t :: seen) rest

/-- First-seen-order de-duplication, starting from the empty seen set. -/
def dedupFirstSeen (l : List String) : List String := dedupSeen [] l

/-- The desktop aggregation (`desktop_stock_app.py` lines 124-135): overall
score plus the combined title list, which is not de-duplicated. -/
def aggregateDesktop (samples : List (Option ℚ × List String)) :
    Option ℚ × List String :=
  (overallScore samples, combinedTitles samples)

/-- The web aggregation (`stock_app.py` lines 216-235): overall score plus
the combined title list, de-duplicated (under the `if combined_news_titles:`
guard of line 228) keeping first occurrences. -/
def aggregateWeb (samples : List (Option ℚ × List String)) :
    Option ℚ × List String :=
  (overallScore samples,
   if combinedTitles samples = [] then combinedTitles samples
   else dedupFirstSeen (combinedTitles samples))

/-- The unique-titles display sample of `desktop_stock_app.py` line 141:
`list(set(combined_news_titles))[:5]` — distinct titles, truncated to five.
Python's set iteration order is unspecified; first-seen order stands in for
it here. -/
def desktopDisplayTitles (samples : List (Option ℚ × List String)) :
    List String :=
  (dedupFirstSeen (combinedTitles samples)).take 5

/-- A NewsAPI article as consumed by the desktop wrapper: optional `title`
and `description` fields (`none` models a missing or null field). -/
structure Article where
  title : Option String
  description : Option String

/-- The filter of `desktop_stock_app.py` line 224:
`if article.get('title') or article.get('description')`. -/
def articleUsable (a : Article) : Bool :=
  pyTruthy a.title || pyTruthy a.description

/-- The text scored at `desktop_stock_app.py` line 223:
`article.get('title', '') + " " + (article.get('description', '') or "")`. -/
def articleText (a : Article) : String :=
  a.title.getD "" ++ " " ++ a.description.getD ""

/-- Outcome of the external `newsapi_client_gui.get_everything` call:
a response whose `articles` field is missing/falsy (`ok none`), a list of
articles (`ok (some articles)`), a `NewsAPIException`, or any other
exception. -/
inductive FetchOutcome where
  | ok (articlesField : Option (List Article))
  | apiError (msg : String)
  | otherError (msg : String)

/-- `StockAnalyzerApp._fetch_news_from_newsapi_for_gui`
(`desktop_stock_app.py` lines 201-241).  `score` stands for the external
`analyze_sentiment`; `clientInit` for whether `newsapi_client_gui` was
initialized.  Every failure path returns `(none, [])`; the success path
returns the mean sentiment of usable articles together with their titles
(`'No Title'` for a missing title). -/
def fetchNewsFromNewsapiForGui (score : String → ℚ) (clientInit : Bool)
    (outcome : FetchOutcome) : Option ℚ × List String :=
  if clientInit = false then (none, [])
  else
    match outcome with
    | .apiError _ => (none, [])
    | .otherError _ => (none, [])
    | .ok none => (none, [])
    | .ok (some articles) =>
      if articles.isEmpty then (none, [])
      else
        let sentiments := (articles.filter articleUsable).map
          (fun a => score (articleText a))
        if sentiments = [] then (none, [])
        else (some (mean sentiments), articles.map (fun a => a.title.getD "No Title"))

/-- The NewsAPI dispatch of `stock_app.py` lines 203-205: the fetcher runs
only when `NEWS_API_KEY` is truthy, otherwise the sample keeps its
initializer `(None, [])`. -/
def webNewsapiSample (fetchClient : String → Option ℚ × List String)
    (newsKey : Option String) (ticker : String) : Option ℚ × List String :=
  if pyTruthy newsKey then fetchClient ticker else (none, [])

/-- The GNews dispatch of `stock_app.py` lines 209-212: the fetcher runs
only when the processed ticker ends with `.NS` and `GNEWS_API_KEY` is
truthy, otherwise the sample keeps its initializer `(None, [])`. -/
def webGnewsSample (fetchClient : String → Option ℚ × List String)
    (gnewsKey : Option String) (ticker : String) : Option ℚ × List String :=
  if endsWithNS ticker then
    if pyTruthy gnewsKey then fetchClient ticker else (none, [])
  else (none, [])

/-- The ticker-input gate of `desktop_stock_app.py` lines 85-88: strip and
uppercase first, then bail out (warning only) when the result is empty. -/
def desktopTicker (raw : String) : Option String :=
  if pyUpper (pyStrip raw) = "" then none else some (pyUpper (pyStrip raw))

/-- The ticker-input gate of `stock_app.py` lines 140-144: bail out
(warning only) when the stripped input is empty, else analyze the stripped,
uppercased ticker. -/
def webTicker (raw : String) : Option String :=
  if pyStrip raw = "" then none else some (pyUpper (pyStrip raw))

/-- Modelled from the spec: the qualitative impact vocabulary consumed by
`generate_signal`.  The impact assessor lives in the external analysis
script (`stock.py` / `improved_stock_analysis_script.py`), which is not part
of this excerpt; the spec treats `ImpactLevel` as an opaque enumeration with
an extra unrecognized sentinel. -/
inductive ImpactLevel where
  | negative
  | neutral
  | positive
  | unrecognized
deriving DecidableEq

/-- Modelled from the spec: the closed signal vocabulary produced by
`generate_signal` (spec §3: `BUY, SELL, HOLD or finer grades`). -/
inductive Signal where
  | buy
  | sell
  | hold
deriving DecidableEq

/-- Modelled from the spec: `generate_signal` from the external analysis
script, absent from this excerpt.  Spec §4.2 and §8 require a total,
deterministic table from impact level to signal in which an unrecognized
level maps to a designated neutral signal rather than raising. -/
def generate_signal : ImpactLevel → Signal
  | .positive => .buy
  | .negative => .sell
  | .neutral => .hold
  | .unrecognized => .hold

/-! ### Helper lemmas -/

theorem combinedSentiments_eq_filterMap (l : List (Option ℚ × List String)) :
    combinedSentiments l = l.filterMap Prod.fst := by
  induction l with
  | nil => rfl
  | cons s rest ih =>
    cases s with
    | mk fst snd =>
      cases fst with
      | none => simpa [combinedSentiments, List.filterMap_cons] using ih
      | some x => simpa [combinedSentiments, List.filterMap_cons] using ih

theorem combinedSentiments_length (l : List (Option ℚ × List String)) :
    (combinedSentiments l).length = l.countP (fun s => s.1.isSome) := by
  induction l with
  | nil => rfl
  | cons s rest ih =>
    cases s with
    | mk fst snd =>
      cases fst with
      | none => simpa [combinedSentiments, List.countP_cons] using ih
      | some x => simpa [combinedSentiments, List.countP_cons] using ih

theorem pyUpper_eq_empty_iff (s : String) : pyUpper s = "" ↔ s = "" := by
  cases s with
  | mk data =>
    simp only [pyUpper, String.ext_iff]
    exact List.map_eq_nil_iff

theorem count_dedupSeen (t : String) (l : List String) :
    ∀ seen : List String,
      (dedupSeen seen l).count t = if t ∈ l ∧ t ∉ seen then 1 else 0 := by
  induction l with
  | nil => intro seen; simp [dedupSeen]
  | cons a rest ih =>
    intro seen
    by_cases ha : a ∈ seen
    · rw [dedupSeen, if_pos ha, ih seen]
      by_cases hta : t = a
      · subst hta
        simp [ha]
      · simp [List.mem_cons, hta]
    · rw [dedupSeen, if_neg ha, List.count_cons, ih (a :: seen)]
      by_cases hta : t = a
      · subst hta
        simp [ha, List.mem_cons]
      · have hat : ¬a = t := fun h => hta h.symm
        simp [List.mem_cons, hta, hat]

theorem aggregateDesktop_cons_none (ts : List String)
    (rest : List (Option ℚ × List String)) :
    aggregateDesktop ((none, ts) :: rest) = aggregateDesktop rest := by
  have hs : combinedSentiments ((none, ts) :: rest) = combinedSentiments rest := rfl
  have ht : combinedTitles ((none, ts) :: rest) = combinedTitles rest := rfl
  rw [aggregateDesktop, aggregateDesktop, overallScore, overallScore, hs, ht]

theorem aggregateWeb_cons_none (ts : List String)
    (rest : List (Option ℚ × List String)) :
    aggregateWeb ((none, ts) :: rest) = aggregateWeb rest := by
  have hs : combinedSentiments ((none, ts) :: rest) = combinedSentiments rest := rfl
  have ht : combinedTitles ((none, ts) :: rest) = combinedTitles rest := rfl
  rw [aggregateWeb, aggregateWeb, overallScore, overallScore, hs, ht]

/-! ### Claim theorems -/

/-- C1: the aggregated overall score is `None` iff zero input samples had a
non-null score (in particular both front ends aggregate the empty sequence to
`(none, [])`); otherwise it is the unweighted arithmetic mean of the non-null
sample scores — each sample contributes exactly one scalar regardless of how
many titles it carries — with no clipping or re-normalization applied after
averaging. -/
theorem overall_score_mean_invariant (samples : List (Option ℚ × List String)) :
    (overallScore samples = none ↔ samples.countP (fun s => s.1.isSome) = 0)
    ∧ overallScore samples =
        (if combinedSentiments samples = [] then none
         else some ((combinedSentiments samples).sum /
           ((combinedSentiments samples).length : ℚ)))
    ∧ (combinedSentiments samples).length = samples.countP (fun s => s.1.isSome)
    ∧ aggregateDesktop [] = ((none : Option ℚ), ([] : List String))
    ∧ aggregateWeb [] = ((none : Option ℚ), ([] : List String)) := by
  refine ⟨?_, ?_, combinedSentiments_length samples, rfl, rfl⟩
  · rw [overallScore, ← combinedSentiments_length]
    constructor
    · intro h
      by_cases hc : combinedSentiments samples = []
      · rw [hc]; rfl
      · rw [if_neg hc] at h; exact absurd h (by simp)
    · intro h
      rw [if_pos (List.length_eq_zero.mp h)]
  · simp only [overallScore, mean]

/-- C2: a sample whose score is null is skipped entirely by both front ends'
aggregation — it contributes neither to the mean nor any titles; in
particular aggregating `[(None, []), (0.8, ["x"])]` in the web front end
yields overall score `0.8` and titles `["x"]`. -/
theorem null_score_sample_skipped (ts : List String)
    (rest : List (Option ℚ × List String)) :
    aggregateDesktop ((none, ts) :: rest) = aggregateDesktop rest
    ∧ aggregateWeb ((none, ts) :: rest) = aggregateWeb rest
    ∧ aggregateWeb [(none, ([] : List String)), (some ((8 : ℚ) / 10), ["x"])]
        = (some ((8 : ℚ) / 10), ["x"]) := by
  refine ⟨aggregateDesktop_cons_none ts rest, aggregateWeb_cons_none ts rest, ?_⟩
  norm_num [aggregateWeb, overallScore, combinedSentiments, combinedTitles,
    dedupFirstSeen, dedupSeen, mean]

/-- C3 counterexample: the desktop front end's aggregated title collection is
not de-duplicated — at the input cited by the claim it carries three copies
of `Title A`, not exactly one. -/
theorem desktop_titles_not_dedup_counterexample :
    (aggregateDesktop [(some ((2 : ℚ) / 10), ["Title A", "Title A"]),
        (some ((4 : ℚ) / 10), ["Title A"])]).2
      = ["Title A", "Title A", "Title A"]
    ∧ ¬ ((aggregateDesktop [(some ((2 : ℚ) / 10), ["Title A", "Title A"]),
        (some ((4 : ℚ) / 10), ["Title A"])]).2.count "Title A" = 1) := by
  exact ⟨rfl, by decide⟩

/-- C3 (amended): in the web front end the aggregated title collection
contains exactly one copy of each distinct contributing title (first
occurrence kept), and the cited example yields exactly `["Title A"]`; in the
desktop front end only the displayed sample of at most five distinct titles
is duplicate-free, the aggregated collection itself keeps duplicates. -/
theorem web_titles_exactly_once (samples : List (Option ℚ × List String))
    (t : String) :
    ((aggregateWeb samples).2.count t
        = if t ∈ combinedTitles samples then 1 else 0)
    ∧ (desktopDisplayTitles samples).count t ≤ 1
    ∧ (aggregateWeb [(some ((2 : ℚ) / 10), ["Title A", "Title A"]),
        (some ((4 : ℚ) / 10), ["Title A"])]).2 = ["Title A"] := by
  refine ⟨?_, ?_, by decide⟩
  · rw [aggregateWeb]
    by_cases hc : combinedTitles samples = []
    · simp [hc]
    · simp only [if_neg hc]
      rw [dedupFirstSeen, count_dedupSeen]
      simp
  · rw [desktopDisplayTitles]
    refine le_trans ((List.take_sublist 5 _).count_le t) ?_
    rw [dedupFirstSeen, count_dedupSeen]
    split <;> simp

/-- C4: the desktop NewsAPI fetch wrapper returns the sentinel `(none, [])`
for every failure behavior of the external client — client uninitialized,
missing or empty article list, a NewsAPI-specific exception, or any other
exception raised during the fetch — and, being a total function of the
modelled outcome, never lets an exception propagate past the fetch boundary
into the aggregation step. -/
theorem fetch_gui_failure_sentinel (score : String → ℚ) (outcome : FetchOutcome)
    (m : String) :
    fetchNewsFromNewsapiForGui score false outcome = (none, [])
    ∧ fetchNewsFromNewsapiForGui score true (.ok none) = (none, [])
    ∧ fetchNewsFromNewsapiForGui score true (.ok (some [])) = (none, [])
    ∧ fetchNewsFromNewsapiForGui score true (.apiError m) = (none, [])
    ∧ fetchNewsFromNewsapiForGui score true (.otherError m) = (none, []) :=
  ⟨rfl, rfl, rfl, rfl, rfl⟩

/-- C5: the desktop NewsAPI fetch wrapper preserves the pairing invariant on
every return path: whenever the returned sentiment is null, the returned
title list is empty — it never pairs a null sentiment with titles. -/
theorem fetch_gui_pairing (score : String → ℚ) (clientInit : Bool)
    (outcome : FetchOutcome)
    (h : (fetchNewsFromNewsapiForGui score clientInit outcome).1 = none) :
    (fetchNewsFromNewsapiForGui score clientInit outcome).2 = [] := by
  cases clientInit with
  | false => rfl
  | true =>
    cases outcome with
    | apiError m => rfl
    | otherError m => rfl
    | ok af =>
      cases af with
      | none => rfl
      | some articles =>
        by_cases he : articles.isEmpty
        · simp [fetchNewsFromNewsapiForGui, he]
        · by_cases hs : (articles.filter articleUsable).map
              (fun a => score (articleText a)) = []
          · simp [fetchNewsFromNewsapiForGui, he, hs]
          · exfalso
            simp [fetchNewsFromNewsapiForGui, he, hs] at h

/-- Witness for C5 at a concrete failure outcome. -/
theorem fetch_gui_pairing_witness :
    (fetchNewsFromNewsapiForGui (fun _ => 0) false (.ok none)).2 = [] :=
  fetch_gui_pairing (fun _ => 0) false (.ok none) rfl

/-- C6: the aggregation of sentiment scores is order-insensitive: for every
permutation of the sample sequence, both front ends compute the same overall
score. -/
theorem overall_score_perm_invariant (s1 s2 : List (Option ℚ × List String))
    (h : s1.Perm s2) :
    (aggregateDesktop s1).1 = (aggregateDesktop s2).1
    ∧ (aggregateWeb s1).1 = (aggregateWeb s2).1 := by
  have hperm : (combinedSentiments s1).Perm (combinedSentiments s2) := by
    rw [combinedSentiments_eq_filterMap, combinedSentiments_eq_filterMap]
    exact h.filterMap Prod.fst
  have hlen := hperm.length_eq
  have hsum := hperm.sum_eq
  have hscore : overallScore s1 = overallScore s2 := by
    rw [overallScore, overallScore]
    by_cases hc1 : combinedSentiments s1 = []
    · have hc2 : combinedSentiments s2 = [] :=
        List.length_eq_zero.mp (by rw [← hlen, hc1]; rfl)
      rw [if_pos hc1, if_pos hc2]
    · have hc2 : combinedSentiments s2 ≠ [] := by
        intro hh
        exact hc1 (List.length_eq_zero.mp (by rw [hlen, hh]; rfl))
      rw [if_neg hc1, if_neg hc2, mean, mean, hsum, hlen]
  exact ⟨hscore, hscore⟩

/-- Witness for C6 at a concrete transposition of two samples. -/
theorem overall_score_perm_invariant_witness :
    (aggregateDesktop [((some 1 : Option ℚ), ["a"]), (none, ([] : List String))]).1
      = (aggregateDesktop [(none, ([] : List String)), ((some 1 : Option ℚ), ["a"])]).1 :=
  (overall_score_perm_invariant _ _ (List.Perm.swap (none, []) (some 1, ["a"]) [])).1

/-- C7: the aggregation step is deterministic and free of hidden mutable
state: two runs on the same sample sequence yield identical output in both
front ends. -/
theorem aggregate_deterministic (samples : List (Option ℚ × List String))
    (w1 w2 d1 d2 : Option ℚ × List String)
    (hw1 : w1 = aggregateWeb samples) (hw2 : w2 = aggregateWeb samples)
    (hd1 : d1 = aggregateDesktop samples) (hd2 : d2 = aggregateDesktop samples) :
    w1 = w2 ∧ d1 = d2 := by
  subst hw1; subst hw2; subst hd1; subst hd2
  exact ⟨rfl, rfl⟩

/-- Witness for C7: two runs on the empty sample sequence. -/
theorem aggregate_deterministic_witness :
    (((none, []) : Option ℚ × List String) = ((none, []) : Option ℚ × List String))
    ∧ (((none, []) : Option ℚ × List String) = ((none, []) : Option ℚ × List String)) :=
  aggregate_deterministic [] (none, []) (none, []) (none, []) (none, [])
    rfl rfl rfl rfl

/-- C8: the signal deriver is total: every impact level, including the
unrecognized sentinel, maps to a defined signal of the closed enumeration,
and the unrecognized sentinel maps to the designated neutral signal. -/
theorem generate_signal_total (l : ImpactLevel) :
    (generate_signal l = Signal.buy ∨ generate_signal l = Signal.sell
      ∨ generate_signal l = Signal.hold)
    ∧ generate_signal ImpactLevel.unrecognized = Signal.hold := by
  cases l <;> simp [generate_signal]

/-- C9: in the web dashboard the GNews fetcher runs only when the processed
ticker ends with `.NS` and `GNEWS_API_KEY` is truthy — in every other case
the GNews sample stays at the sentinel `(none, [])`, independently of the
fetcher, and a sentinel sample contributes nothing to the aggregation;
likewise the NewsAPI fetcher runs only when `NEWS_API_KEY` is truthy; and
when both GNews conditions hold the fetcher is indeed invoked. -/
theorem web_fetch_gating (f g gx : String → Option ℚ × List String)
    (newsKey gnewsKey : Option String) (ticker : String) :
    (¬ (endsWithNS ticker = true ∧ pyTruthy gnewsKey = true) →
        webGnewsSample g gnewsKey ticker = (none, [])
        ∧ webGnewsSample g gnewsKey ticker = webGnewsSample gx gnewsKey ticker)
    ∧ (pyTruthy newsKey = false →
        webNewsapiSample f newsKey ticker = (none, [])
        ∧ ∀ fx : String → Option ℚ × List String,
            webNewsapiSample f newsKey ticker = webNewsapiSample fx newsKey ticker)
    ∧ (∀ rest : List (Option ℚ × List String),
        aggregateWeb ((none, ([] : List String)) :: rest) = aggregateWeb rest)
    ∧ (endsWithNS ticker = true → pyTruthy gnewsKey = true →
        webGnewsSample g gnewsKey ticker = g ticker) := by
  refine ⟨?_, ?_, fun rest => aggregateWeb_cons_none [] rest, ?_⟩
  · intro h
    have hcase : endsWithNS ticker = false ∨ pyTruthy gnewsKey = false := by
      cases he : endsWithNS ticker
      · exact Or.inl rfl
      · cases hg : pyTruthy gnewsKey
        · exact Or.inr rfl
        · exact absurd ⟨he, hg⟩ h
    rcases hcase with he | hg
    · constructor <;> simp [webGnewsSample, he]
    · constructor <;> simp [webGnewsSample, hg]
  · intro h
    constructor
    · simp [webNewsapiSample, h]
    · intro fx
      simp [webNewsapiSample, h]
  · intro he hg
    simp [webGnewsSample, he, hg]

/-- Witness for C9: an Indian ticker with a truthy GNews key runs the GNews
fetcher. -/
theorem web_fetch_gating_witness :
    webGnewsSample (fun _ => (some 1, ["t"])) (some "k") "RELIANCE.NS"
      = ((some 1 : Option ℚ), ["t"]) :=
  (web_fetch_gating (fun _ => (none, [])) (fun _ => (some 1, ["t"]))
      (fun _ => (none, [])) none (some "k") "RELIANCE.NS").2.2.2
    (by decide) (by decide)

/-- C10: in both front ends the analysis pipeline runs exactly when the raw
input is non-blank after stripping whitespace, and the analyzed ticker is
then the stripped, uppercased input; both gates agree, and a blank or
whitespace-only input yields no analysis. -/
theorem ticker_input_gate (raw : String) :
    desktopTicker raw = webTicker raw
    ∧ (desktopTicker raw = none ↔ pyStrip raw = "")
    ∧ (∀ t : String, desktopTicker raw = some t → t = pyUpper (pyStrip raw)) := by
  have hup := pyUpper_eq_empty_iff (pyStrip raw)
  refine ⟨?_, ?_, ?_⟩
  · rw [desktopTicker, webTicker]
    by_cases hc : pyStrip raw = ""
    · rw [if_pos hc, if_pos (hup.mpr hc)]
    · rw [if_neg hc, if_neg (fun hh => hc (hup.mp hh))]
  · rw [desktopTicker]
    by_cases hc : pyUpper (pyStrip raw) = ""
    · rw [if_pos hc]
      simp [hup.mp hc]
    · rw [if_neg hc]
      constructor
      · intro hh
        exact absurd hh (by simp)
      · intro hh
        exact absurd (hup.mpr hh) hc
  · intro t ht
    rw [desktopTicker] at ht
    by_cases hc : pyUpper (pyStrip raw) = ""
    · rw [if_pos hc] at ht
      cases ht
    · rw [if_neg hc] at ht
      exact (Option.some.inj ht).symm

/-- Witness for C10 at a concrete padded lowercase input. -/
theorem ticker_input_gate_witness : "GOOG" = pyUpper (pyStrip " goog ") :=
  (ticker_input_gate " goog ").2.2 "GOOG" (by decide)
